import Mathlib

/-!
Shallow embedding of the status server in `src/app/main.py`
(Flask app: routes `/`, `/health`, `/ready`; Talisman security headers;
flask-limiter rate limiting; startup port validation in `__main__`).

Environment variables are modelled as explicit `Option String` values for
the three variables the program consumes (`APP_ENV`, `APP_VERSION`, `PORT`).
Request processing is modelled as a function from the list of previously
issued requests and the current request to a response; a whole run is a
fold over a request trace.
-/

namespace App

/-- Checks the tail of a Python integer literal: digits with single
underscores allowed only between digits (Python `int()` grammar,
restricted to ASCII digits). -/
def pyDigitsTail : List Char → Bool
  | [] => true
  | c :: cs =>
    if c.isDigit then pyDigitsTail cs
    else if c = '_' then
      match cs with
      | [] => false
      | d :: ds => d.isDigit && pyDigitsTail ds
    else false

/-- A nonempty ASCII digit string, with Python underscore grouping rules. -/
def pyDigits : List Char → Bool
  | [] => false
  | c :: cs => c.isDigit && pyDigitsTail cs

/-- Numeric value of a digit list (underscores must be filtered out first). -/
def digitsVal (cs : List Char) : Nat :=
  cs.foldl (fun a c => a * 10 + (c.toNat - 48)) 0

/-- Model of Python `int(s)` on a string: strip surrounding whitespace,
an optional single sign, then ASCII digits with underscore grouping;
`none` models the `ValueError` raised on any other input. -/
def pyInt (s : String) : Option Int :=
  let stripped := ((s.toList.dropWhile Char.isWhitespace).reverse.dropWhile
      Char.isWhitespace).reverse
  match stripped with
  | [] => none
  | c :: rest =>
    if c = '+' then
      if pyDigits rest then some (Int.ofNat (digitsVal (rest.filter Char.isDigit)))
      else none
    else if c = '-' then
      if pyDigits rest then some (-(Int.ofNat (digitsVal (rest.filter Char.isDigit))))
      else none
    else
      if pyDigits stripped then some (Int.ofNat (digitsVal (stripped.filter Char.isDigit)))
      else none

/-- The `__main__` block of `src/app/main.py`:
`port = int(os.environ.get("PORT", "8080"))` followed by the range check
`if not (1024 <= port <= 65535): port = 8080`. The result is the port the
server binds on; `none` models the uncaught `ValueError` aborting startup. -/
def startupPort (portVar : Option String) : Option Int :=
  match pyInt (portVar.getD "8080") with
  | none => none
  | some p => if 1024 ≤ p ∧ p ≤ 65535 then some p else some 8080

/-- The three environment variables the program consumes. -/
structure Environ where
  appEnv : Option String
  appVersion : Option String
  port : Option String
deriving DecidableEq

/-- An inbound HTTP GET request: arrival time in seconds, remote client
address, and request path. -/
structure Request where
  time : Nat
  addr : String
  path : String
deriving DecidableEq

/-- An HTTP response: status code, JSON body as an ordered key-value list,
and response headers. -/
structure Response where
  status : Nat
  body : List (String × String)
  headers : List (String × String)
deriving DecidableEq

/-- The `index` handler body of `src/app/main.py`: reads `APP_ENV`
(default `dev`, reset to `dev` unless in `[dev, staging, production]`)
and `APP_VERSION` (default `local`, no validation), and returns the
four-field JSON object. -/
def index (e : Environ) (hostname : String) : Response :=
  let env0 := e.appEnv.getD "dev"
  let env := if env0 = "dev" ∨ env0 = "staging" ∨ env0 = "production" then env0 else "dev"
  { status := 200
    body := [("service", "ci-cd-zero-to-hero"), ("hostname", hostname),
             ("environment", env), ("version", e.appVersion.getD "local")]
    headers := [] }

/-- The `health` handler: constant liveness stub. -/
def health : Response :=
  { status := 200, body := [("status", "healthy")], headers := [] }

/-- The `ready` handler: constant readiness stub. -/
def ready : Response :=
  { status := 200, body := [("status", "ready")], headers := [] }

/-- Number of previously issued requests to `/` from the same client
address falling in the same fixed window of `w` seconds as request `r`. -/
def windowCount (prev : List Request) (r : Request) (w : Nat) : Nat :=
  (prev.filter (fun q => q.addr == r.addr && q.path == "/" && q.time / w == r.time / w)).length

/-- Modelled from the spec: the flask-limiter rate limiter configured in
`src/app/main.py` (default limits `100 per hour` and `20 per minute`, the
route limit `50 per minute` on `GET /`, with `/health` and `/ready`
exempt); the limiter implementation itself is not under `src/`. Per spec
section 4.3 all applicable fixed-window limits compound and the most
restrictive applicable limit wins, with counters resetting at window
boundaries. Caveat: the documented default of flask-limiter is that a
route-decorated limit overrides the application-wide default limits
(`override_defaults=True`), under which only the 50/minute bound would
apply to `/`; that library code is unavailable here, so the compounding semantics
of the spec are modelled. -/
def rateLimited (prev : List Request) (r : Request) : Bool :=
  decide (50 ≤ windowCount prev r 60) || decide (20 ≤ windowCount prev r 60) ||
    decide (100 ≤ windowCount prev r 3600)

/-- Modelled from the spec: the response headers set by the
`Talisman(app, ...)` middleware configured in `src/app/main.py`, whose
implementation is not under `src/`. The `Strict-Transport-Security`
header of the strict variant is omitted because its emission is
TLS-conditional and outside the modelled surface. -/
def securityHeaders : List (String × String) :=
  [("X-Frame-Options", "SAMEORIGIN"), ("X-Content-Type-Options", "nosniff"),
   ("Content-Security-Policy", "default-src \x27self\x27")]

/-- Modelled from the spec: Talisman decorates every outgoing response
with the security headers, leaving status and body unchanged. -/
def applySecurityHeaders (resp : Response) : Response :=
  { resp with headers := securityHeaders ++ resp.headers }

/-- Route dispatch for one request given the previously issued requests:
`/` passes through the rate limiter (429 rejection before the handler
body runs) and then the `index` handler; `/health` and `/ready` are
exempt from rate limiting; anything else gets the Flask default 404. -/
def dispatch (e : Environ) (hostname : String) (prev : List Request) (r : Request) : Response :=
  if r.path = "/" then
    if rateLimited prev r then { status := 429, body := [], headers := [] }
    else index e hostname
  else if r.path = "/health" then health
  else if r.path = "/ready" then ready
  else { status := 404, body := [], headers := [] }

/-- Full processing of one request: dispatch, then the security-header
middleware applied to the outgoing response. -/
def respond (e : Environ) (hostname : String) (prev : List Request) (r : Request) : Response :=
  applySecurityHeaders (dispatch e hostname prev r)

/-- Serve a request trace, threading the list of already issued requests. -/
def serveAux (e : Environ) (hostname : String) (prev : List Request) :
    List Request → List Response
  | [] => []
  | r :: rs => respond e hostname prev r :: serveAux e hostname (prev ++ [r]) rs

/-- The observable behaviour of a server run on a request trace. -/
def serve (e : Environ) (hostname : String) (trace : List Request) : List Response :=
  serveAux e hostname [] trace

end App

namespace App

/-- Index lookup of responses in a run: the response at position `i` is the
one-step `respond` applied to the prefix of requests issued earlier. -/
theorem serveAux_getElem_eq (e : Environ) (hn : String) :
    ∀ (t prev : List Request) (i : Nat),
      (serveAux e hn prev t)[i]? = (t[i]?).map (fun r => respond e hn (prev ++ t.take i) r) := by
  intro t
  induction t with
  | nil => intro prev i; simp [serveAux]
  | cons r rs ih =>
    intro prev i
    cases i with
    | zero => simp [serveAux]
    | succ j =>
      simp only [serveAux, List.getElem?_cons_succ, List.take_succ_cons]
      rw [ih (prev ++ [r]) j]
      simp [List.append_assoc]

/-- Specialisation of `serveAux_getElem_eq` to a whole run. -/
theorem serve_getElem_eq (e : Environ) (hn : String) (t : List Request) (i : Nat) :
    (serve e hn t)[i]? = (t[i]?).map (fun r => respond e hn (t.take i) r) := by
  simpa using serveAux_getElem_eq e hn t [] i

/-- Every response of a run is a `respond` of some prefix and request. -/
theorem mem_serveAux (e : Environ) (hn : String) :
    ∀ (t prev : List Request) (resp : Response), resp ∈ serveAux e hn prev t →
      ∃ p r, resp = respond e hn p r := by
  intro t
  induction t with
  | nil => intro prev resp h; simp [serveAux] at h
  | cons r rs ih =>
    intro prev resp h
    simp only [serveAux, List.mem_cons] at h
    rcases h with h | h
    · exact ⟨prev, r, h⟩
    · exact ih (prev ++ [r]) resp h

/-- On every route, the headers of the outgoing response are exactly the
security headers set by the middleware. -/
theorem respond_headers (e : Environ) (hn : String) (prev : List Request) (r : Request) :
    (respond e hn prev r).headers = securityHeaders := by
  unfold respond applySecurityHeaders dispatch
  split
  · split <;> simp [index]
  · split
    · simp [health]
    · split <;> simp [ready]

/-- C1: for every `APP_ENV` value in `{dev, staging, production}` the
`environment` field of the `GET /` body equals that value; for every other
value, and when `APP_ENV` is absent, it equals `dev`. -/
theorem index_environment_field (e : Environ) (hn : String) :
    (∀ v, e.appEnv = some v → (v = "dev" ∨ v = "staging" ∨ v = "production") →
        (index e hn).body.lookup "environment" = some v) ∧
    (∀ v, e.appEnv = some v → v ≠ "dev" → v ≠ "staging" → v ≠ "production" →
        (index e hn).body.lookup "environment" = some "dev") ∧
    (e.appEnv = none → (index e hn).body.lookup "environment" = some "dev") := by
  refine ⟨?_, ?_, ?_⟩
  · intro v hv hmem
    simp only [index, hv, Option.getD_some]
    rw [if_pos hmem]
    rfl
  · intro v hv h1 h2 h3
    simp only [index, hv, Option.getD_some]
    rw [if_neg (by rintro (h | h | h) <;> contradiction)]
    rfl
  · intro hv
    simp only [index, hv, Option.getD_none]
    rfl

/-- Witness for C1 at the invalid value `APP_ENV=qa`. -/
theorem index_env_witness :
    (index ⟨some "qa", none, none⟩ "h").body.lookup "environment" = some "dev" :=
  (index_environment_field ⟨some "qa", none, none⟩ "h").2.1 "qa" rfl
    (by decide) (by decide) (by decide)

/-- C2: the `version` field of the `GET /` body equals `APP_VERSION`
verbatim, and `local` when `APP_VERSION` is absent. -/
theorem index_version_field (e : Environ) (hn : String) :
    (∀ v, e.appVersion = some v → (index e hn).body.lookup "version" = some v) ∧
    (e.appVersion = none → (index e hn).body.lookup "version" = some "local") := by
  constructor
  · intro v hv
    simp only [index, hv, Option.getD_some]
    rfl
  · intro hv
    simp only [index, hv, Option.getD_none]
    rfl

/-- Witness for C2 at `APP_VERSION=1.2.3`. -/
theorem index_version_witness :
    (index ⟨none, some "1.2.3", none⟩ "h").body.lookup "version" = some "1.2.3" :=
  (index_version_field ⟨none, some "1.2.3", none⟩ "h").1 "1.2.3" rfl

/-- C3: in any run, a request to `/` from an address that has already
issued more than 50 requests to `/` within the same one-minute window is
rejected with status 429, while every request to `/health` or `/ready`
is answered 200 with its literal body, however large the burst. -/
theorem burst_rejected_probes_unaffected (e : Environ) (hn : String)
    (t : List Request) (i : Nat) (r : Request) (resp : Response)
    (hr : t[i]? = some r) (hresp : (serve e hn t)[i]? = some resp) :
    (r.path = "/" → 50 < windowCount (t.take i) r 60 → resp.status = 429) ∧
    (r.path = "/health" → resp.status = 200 ∧ resp.body = [("status", "healthy")]) ∧
    (r.path = "/ready" → resp.status = 200 ∧ resp.body = [("status", "ready")]) := by
  rw [serve_getElem_eq, hr, Option.map_some'] at hresp
  have hre : resp = respond e hn (t.take i) r := (Option.some.injEq _ _).mp hresp.symm
  subst hre
  refine ⟨?_, ?_, ?_⟩
  · intro hp hcount
    have hrl : rateLimited (t.take i) r = true := by
      simp only [rateLimited, Bool.or_eq_true, decide_eq_true_eq]
      exact Or.inl (Or.inl (le_of_lt hcount))
    simp [respond, applySecurityHeaders, dispatch, hp, hrl]
  · intro hp
    simp [respond, applySecurityHeaders, dispatch, hp, health]
  · intro hp
    simp [respond, applySecurityHeaders, dispatch, hp, ready]

/-- Witness for C3: the 52nd request to `/` in one window is rejected. -/
theorem burst_witness :
    ((List.replicate 51 (⟨0, "c", "/"⟩ : Request) ++ [⟨5, "c", "/"⟩])[51]? =
        some (⟨5, "c", "/"⟩ : Request)) ∧
    ((serve ⟨none, none, none⟩ "h"
        (List.replicate 51 (⟨0, "c", "/"⟩ : Request) ++ [⟨5, "c", "/"⟩]))[51]? =
        some (⟨429, [], securityHeaders⟩ : Response)) ∧
    (50 < windowCount (List.replicate 51 (⟨0, "c", "/"⟩ : Request)) ⟨5, "c", "/"⟩ 60) ∧
    (⟨429, [], securityHeaders⟩ : Response).status = 429 :=
  ⟨by decide, by decide, by decide,
    (burst_rejected_probes_unaffected ⟨none, none, none⟩ "h"
      (List.replicate 51 (⟨0, "c", "/"⟩ : Request) ++ [⟨5, "c", "/"⟩]) 51
      ⟨5, "c", "/"⟩ ⟨429, [], securityHeaders⟩ (by decide) (by decide)).1 rfl (by decide)⟩

/-- C4 counterexample: with `PORT=abc` the call `int("abc")` raises, so
startup aborts, contradicting the claim that startup never aborts for
any string value of `PORT`. -/
theorem startup_aborts_on_nonnumeric : startupPort (some "abc") = none := by decide

/-- C4 (amended): for absent `PORT` and for every `PORT` value that the
Python `int` parser accepts, startup never aborts; when `PORT` is absent
the server binds on 8080. -/
theorem startup_survives_parseable_port (o : Option String)
    (h : (pyInt (o.getD "8080")).isSome = true) :
    (startupPort o).isSome = true ∧ (o = none → startupPort o = some 8080) := by
  obtain ⟨v, hv⟩ := Option.isSome_iff_exists.mp h
  constructor
  · simp only [startupPort, hv]
    split <;> simp
  · intro ho
    subst ho
    decide

/-- Witness for C4 with `PORT` absent. -/
theorem startup_witness :
    ((pyInt ((none : Option String).getD "8080")).isSome = true) ∧
    (startupPort none).isSome = true ∧
    ((none : Option String) = none → startupPort none = some 8080) :=
  ⟨by decide, startup_survives_parseable_port none (by decide)⟩

/-- C5: when `PORT` parses to an integer outside `[1024, 65535]` the
server binds on 8080; inside the range it binds on exactly that value. -/
theorem port_range_clamp (s : String) (v : Int) (h : pyInt s = some v) :
    startupPort (some s) = some (if 1024 ≤ v ∧ v ≤ 65535 then v else 8080) := by
  simp only [startupPort, Option.getD_some, h]
  by_cases hc : 1024 ≤ v ∧ v ≤ 65535 <;> simp [hc]

/-- Witness for C5 at the out-of-range value `PORT=80`. -/
theorem port_clamp_witness :
    (pyInt "80" = some 80) ∧
    startupPort (some "80") =
      some (if (1024 : Int) ≤ 80 ∧ (80 : Int) ≤ 65535 then (80 : Int) else 8080) :=
  ⟨by decide, port_range_clamp "80" 80 (by decide)⟩

/-- C6: in any run, every request to `/health` or `/ready` is answered
200 with its literal one-field body, whatever the environment, the
request volume and the prior requests. -/
theorem probes_constant (e : Environ) (hn : String) (t : List Request) (i : Nat)
    (r : Request) (resp : Response)
    (hr : t[i]? = some r) (hresp : (serve e hn t)[i]? = some resp) :
    (r.path = "/health" → resp.status = 200 ∧ resp.body = [("status", "healthy")]) ∧
    (r.path = "/ready" → resp.status = 200 ∧ resp.body = [("status", "ready")]) := by
  rw [serve_getElem_eq, hr, Option.map_some'] at hresp
  have hre : resp = respond e hn (t.take i) r := (Option.some.injEq _ _).mp hresp.symm
  subst hre
  constructor
  · intro hp
    simp [respond, applySecurityHeaders, dispatch, hp, health]
  · intro hp
    simp [respond, applySecurityHeaders, dispatch, hp, ready]

/-- Witness for C6 at a concrete probe request. -/
theorem probes_constant_witness :
    (([⟨0, "c", "/health"⟩, ⟨0, "c", "/ready"⟩] : List Request)[0]? =
        some (⟨0, "c", "/health"⟩ : Request)) ∧
    ((serve ⟨some "production", some "9", some "80"⟩ "h"
        [⟨0, "c", "/health"⟩, ⟨0, "c", "/ready"⟩])[0]? =
        some (⟨200, [("status", "healthy")], securityHeaders⟩ : Response)) ∧
    (⟨200, [("status", "healthy")], securityHeaders⟩ : Response).status = 200 ∧
    (⟨200, [("status", "healthy")], securityHeaders⟩ : Response).body = [("status", "healthy")] :=
  ⟨by decide, by decide,
    (probes_constant ⟨some "production", some "9", some "80"⟩ "h"
      [⟨0, "c", "/health"⟩, ⟨0, "c", "/ready"⟩] 0 ⟨0, "c", "/health"⟩
      ⟨200, [("status", "healthy")], securityHeaders⟩ (by decide) (by decide)).1 rfl⟩

/-- C7: every response produced in any run, on any route and including
rate-limit rejections, carries the `X-Frame-Options`,
`X-Content-Type-Options` and `Content-Security-Policy` headers, the last
set to `default-src \x27self\x27`. -/
theorem responses_carry_security_headers (e : Environ) (hn : String) (t : List Request)
    (resp : Response) (h : resp ∈ serve e hn t) :
    (resp.headers.lookup "X-Frame-Options").isSome = true ∧
    (resp.headers.lookup "X-Content-Type-Options").isSome = true ∧
    resp.headers.lookup "Content-Security-Policy" = some "default-src \x27self\x27" := by
  obtain ⟨p, r, rfl⟩ := mem_serveAux e hn t [] resp h
  rw [respond_headers]
  exact ⟨rfl, rfl, rfl⟩

/-- Witness for C7 on a rate-limit rejection response. -/
theorem headers_witness :
    ((⟨429, [], securityHeaders⟩ : Response) ∈
        serve ⟨none, none, none⟩ "h" (List.replicate 21 (⟨0, "c", "/"⟩ : Request))) ∧
    ((⟨429, [], securityHeaders⟩ : Response).headers.lookup "Content-Security-Policy" =
        some "default-src \x27self\x27") :=
  ⟨by decide,
    (responses_carry_security_headers ⟨none, none, none⟩ "h"
      (List.replicate 21 (⟨0, "c", "/"⟩ : Request)) ⟨429, [], securityHeaders⟩ (by decide)).2.2⟩

/-- C8: a request to `/` whose client has exceeded any of the compounded
bounds in its window (50 per minute, 20 per minute, 100 per hour) is
rejected with status 429: the most restrictive applicable limit decides. -/
theorem compounded_limits_reject (e : Environ) (hn : String) (t : List Request) (i : Nat)
    (r : Request) (resp : Response)
    (hr : t[i]? = some r) (hresp : (serve e hn t)[i]? = some resp) (hp : r.path = "/")
    (hexceed : 50 ≤ windowCount (t.take i) r 60 ∨ 20 ≤ windowCount (t.take i) r 60 ∨
      100 ≤ windowCount (t.take i) r 3600) :
    resp.status = 429 := by
  rw [serve_getElem_eq, hr, Option.map_some'] at hresp
  have hre : resp = respond e hn (t.take i) r := (Option.some.injEq _ _).mp hresp.symm
  subst hre
  have hrl : rateLimited (t.take i) r = true := by
    simp only [rateLimited, Bool.or_eq_true, decide_eq_true_eq]
    tauto
  simp [respond, applySecurityHeaders, dispatch, hp, hrl]

/-- Witness for C8: the 21st request in one minute exceeds only the
20-per-minute default bound, not the 50-per-minute route bound, and is
rejected. -/
theorem compounded_limits_witness :
    ((List.replicate 20 (⟨0, "c", "/"⟩ : Request) ++ [⟨1, "c", "/"⟩])[20]? =
        some (⟨1, "c", "/"⟩ : Request)) ∧
    ((serve ⟨none, none, none⟩ "h"
        (List.replicate 20 (⟨0, "c", "/"⟩ : Request) ++ [⟨1, "c", "/"⟩]))[20]? =
        some (⟨429, [], securityHeaders⟩ : Response)) ∧
    (20 ≤ windowCount (List.replicate 20 (⟨0, "c", "/"⟩ : Request)) ⟨1, "c", "/"⟩ 60) ∧
    (⟨429, [], securityHeaders⟩ : Response).status = 429 :=
  ⟨by decide, by decide, by decide,
    compounded_limits_reject ⟨none, none, none⟩ "h"
      (List.replicate 20 (⟨0, "c", "/"⟩ : Request) ++ [⟨1, "c", "/"⟩]) 20
      ⟨1, "c", "/"⟩ ⟨429, [], securityHeaders⟩ (by decide) (by decide) rfl
      (Or.inr (Or.inl (by decide)))⟩

/-- C9: every non-rate-limited request to `/` is answered 200 with a body
of exactly the four keys `service`, `hostname`, `environment`, `version`,
`service` being the constant `ci-cd-zero-to-hero`; with `APP_ENV=staging`
and `APP_VERSION=1.2.3` the body is the concrete four-pair object. -/
theorem index_response_shape (e : Environ) (hn : String) (prev : List Request) (r : Request)
    (hp : r.path = "/") (hl : rateLimited prev r = false) :
    (respond e hn prev r).status = 200 ∧
    (respond e hn prev r).body.map Prod.fst = ["service", "hostname", "environment", "version"] ∧
    (respond e hn prev r).body.lookup "service" = some "ci-cd-zero-to-hero" ∧
    (respond ⟨some "staging", some "1.2.3", e.port⟩ hn prev r).body =
      [("service", "ci-cd-zero-to-hero"), ("hostname", hn),
       ("environment", "staging"), ("version", "1.2.3")] := by
  have hd : ∀ e2 : Environ, respond e2 hn prev r = applySecurityHeaders (index e2 hn) := by
    intro e2
    simp [respond, dispatch, hp, hl]
  rw [hd e, hd ⟨some "staging", some "1.2.3", e.port⟩]
  refine ⟨rfl, rfl, rfl, rfl⟩

/-- Witness for C9 at the scenario of the spec. -/
theorem index_shape_witness :
    ((⟨0, "c", "/"⟩ : Request).path = "/") ∧
    (rateLimited [] ⟨0, "c", "/"⟩ = false) ∧
    ((respond ⟨some "staging", some "1.2.3", none⟩ "myhost" [] ⟨0, "c", "/"⟩).status = 200 ∧
      (respond ⟨some "staging", some "1.2.3", none⟩ "myhost" [] ⟨0, "c", "/"⟩).body.map Prod.fst =
        ["service", "hostname", "environment", "version"] ∧
      (respond ⟨some "staging", some "1.2.3", none⟩ "myhost" [] ⟨0, "c", "/"⟩).body.lookup
          "service" = some "ci-cd-zero-to-hero" ∧
      (respond ⟨some "staging", some "1.2.3", none⟩ "myhost" [] ⟨0, "c", "/"⟩).body =
        [("service", "ci-cd-zero-to-hero"), ("hostname", "myhost"),
         ("environment", "staging"), ("version", "1.2.3")]) :=
  ⟨rfl, by decide,
    index_response_shape ⟨some "staging", some "1.2.3", none⟩ "myhost" [] ⟨0, "c", "/"⟩
      rfl (by decide)⟩

/-- C10: the responses of the `/health` and `/ready` handlers are
independent of every environment variable: runs under any two
environments produce identical responses. -/
theorem probes_env_noninterference (e1 e2 : Environ) (hn : String) (prev : List Request)
    (r : Request) (h : r.path = "/health" ∨ r.path = "/ready") :
    respond e1 hn prev r = respond e2 hn prev r := by
  rcases h with h | h <;> simp [respond, dispatch, h]

/-- Witness for C10 at two concrete environments. -/
theorem noninterference_witness :
    respond ⟨some "production", some "2.0", some "80"⟩ "h" [] ⟨0, "c", "/health"⟩ =
      respond ⟨none, none, none⟩ "h" [] ⟨0, "c", "/health"⟩ :=
  probes_env_noninterference ⟨some "production", some "2.0", some "80"⟩ ⟨none, none, none⟩
    "h" [] ⟨0, "c", "/health"⟩ (Or.inl rfl)

end App
